import Mathlib

/-
  Verification of the printpop ANSI color printing library.

  This file gives a shallow embedding, in Lean 4, of the escape-sequence
  construction and composition engine of the library: the lookup tables
  (named colors, style codes), the sequence builder (collect_codes), the
  core emitter (print_ansi), the generic styled printer (print_formatted),
  the RGB and named-color printers (print_rgb, print_color), the hyperlink
  printer (print_hyperlink), and the thin wrapper functions of the public
  module (print_blink, print_inverse, print_hidden, print_reset).

  Modelling conventions:
  - Python strings are modelled as Lean String values; the Python methods
    str.strip, str.lower, str.startswith and slicing are modelled by
    executable functions on the underlying character list (pyStrip,
    pyLower, pyStartsWith, pyDrop below), since the inputs of interest
    are plain sequences of characters.
  - The printers write to a sink; the value written is modelled as the
    returned String. A call that raises a Python exception is modelled
    as Except.error with the exception text, a normal call as Except.ok
    of the full text written (including the line terminator).
  - The objects argument (Python *objects, each converted with str) is
    modelled as the list of already-converted strings, since str is the
    identity on strings and the claims quantify over the printed texts.
  - Python dict literals are modelled as association lists in source
    order, looked up with List.lookup (first match).  The source dict
    repeats the keys lightsalmon and mediumslateblue with identical
    values, so first-match and last-match lookup agree everywhere.
-/

deriving instance DecidableEq for Except

/-- Model of Python str.lower: lowercase every character. -/
def pyLower (s : String) : String := String.mk (s.data.map Char.toLower)

/-- Model of Python str.strip with no argument: remove leading and
trailing whitespace characters. -/
def pyStrip (s : String) : String :=
  String.mk (((s.data.dropWhile Char.isWhitespace).reverse.dropWhile
    Char.isWhitespace).reverse)

/-- Model of Python str.startswith. -/
def pyStartsWith (s t : String) : Bool := t.data.isPrefixOf s.data

/-- Model of the Python slice s[n:] on a string. -/
def pyDrop (s : String) (n : Nat) : String := String.mk (s.data.drop n)

/-- Text written by Python print for a given part list and separator:
the first part, then separator plus part for every further part. -/
def joinSep (sep : String) : List String → String
  | [] => ""
  | [x] => x
  | x :: y :: rest => x ++ sep ++ joinSep sep (y :: rest)

/-- Model of the Python statement parts[-1] = parts[-1] + suffix on a
non-empty list: append the suffix to the last element. -/
def appendLast (suffix : String) : List String → List String
  | [] => []
  | [x] => [x ++ suffix]
  | x :: y :: rest => x :: appendLast suffix (y :: rest)

namespace ColorPrinter

/-- ANSI_BASE template applied to a code string. -/
def ansiBase (code : String) : String := "\x1b[" ++ code ++ "m"

/-- RGB_FOREGROUND template applied to r, g, b. -/
def rgbForeground (r g b : Nat) : String :=
  "\x1b[38;2;" ++ toString r ++ ";" ++ toString g ++ ";" ++ toString b ++ "m"

/-- RGB_BACKGROUND template applied to r, g, b. -/
def rgbBackground (r g b : Nat) : String :=
  "\x1b[48;2;" ++ toString r ++ ";" ++ toString g ++ ";" ++ toString b ++ "m"

/-- HYPERLINK template applied to the hyperlink target and label text. -/
def hyperlinkTemplate (hyperlink text : String) : String :=
  "\x1b]8;;" ++ hyperlink ++ "\x1b\\" ++ text ++ "\x1b]8;;\x1b\\"

/-- Tag marking background-color format keys. -/
def BACK_TAG : String := "back_"

/-- Default color name used by print_color. -/
def DEFAULT_COLOR : String := "white"

/-- RGB mappings for named colors, in source order. -/
def COLOR_RGB : List (String × (Nat × Nat × Nat)) := [
  ("aliceblue", (240, 248, 255)),
  ("antiquewhite", (250, 235, 215)),
  ("aqua", (0, 255, 255)),
  ("aquamarine", (127, 255, 212)),
  ("azure", (240, 255, 255)),
  ("bisque", (255, 228, 196)),
  ("blanchedalmond", (255, 235, 205)),
  ("blue", (0, 0, 255)),
  ("blueviolet", (138, 43, 226)),
  ("brown", (165, 42, 42)),
  ("burlywood", (222, 184, 135)),
  ("cadetblue", (95, 158, 160)),
  ("chartreuse", (127, 255, 0)),
  ("chocolate", (210, 105, 30)),
  ("coral", (255, 127, 80)),
  ("cornflowerblue", (100, 149, 237)),
  ("cornsilk", (255, 248, 220)),
  ("crimson", (220, 20, 60)),
  ("cyan", (0, 255, 255)),
  ("darkblue", (0, 0, 139)),
  ("darkcyan", (0, 139, 139)),
  ("darkgray", (169, 169, 169)),
  ("darkgreen", (0, 100, 0)),
  ("darkgrey", (169, 169, 169)),
  ("darkkhaki", (189, 183, 107)),
  ("darkmagenta", (139, 0, 139)),
  ("darkolivegreen", (85, 107, 47)),
  ("darkorange", (255, 140, 0)),
  ("darkorchid", (153, 50, 204)),
  ("darkred", (139, 0, 0)),
  ("darksalmon", (233, 150, 122)),
  ("darkseagreen", (143, 188, 139)),
  ("darkslateblue", (72, 61, 139)),
  ("darkslategray", (47, 79, 79)),
  ("darkslategrey", (47, 79, 79)),
  ("darkturquoise", (0, 206, 209)),
  ("darkviolet", (148, 0, 211)),
  ("deeppink", (255, 20, 147)),
  ("deepskyblue", (0, 191, 255)),
  ("dimgray", (105, 105, 105)),
  ("dimgrey", (105, 105, 105)),
  ("dodgerblue", (30, 144, 255)),
  ("firebrick", (178, 34, 34)),
  ("floralwhite", (255, 250, 240)),
  ("forestgreen", (34, 139, 34)),
  ("fuchsia", (255, 0, 255)),
  ("gainsboro", (220, 220, 220)),
  ("ghostwhite", (248, 248, 255)),
  ("gold", (255, 215, 0)),
  ("gray", (128, 128, 128)),
  ("green", (0, 128, 0)),
  ("greenyellow", (173, 255, 47)),
  ("grey", (128, 128, 128)),
  ("honeydew", (240, 255, 240)),
  ("hotpink", (255, 105, 180)),
  ("indianred", (205, 92, 92)),
  ("indigo", (75, 0, 130)),
  ("ivory", (255, 255, 240)),
  ("khaki", (240, 230, 140)),
  ("lavender", (230, 230, 250)),
  ("lavenderblush", (255, 240, 245)),
  ("lawngreen", (124, 252, 0)),
  ("lemonchiffon", (255, 250, 205)),
  ("lightblue", (173, 216, 230)),
  ("lightcoral", (240, 128, 128)),
  ("lightcyan", (224, 255, 255)),
  ("lightgoldenrodyellow", (250, 250, 210)),
  ("lightgray", (211, 211, 211)),
  ("lightgreen", (144, 238, 144)),
  ("lightgrey", (211, 211, 211)),
  ("lightpink", (255, 182, 193)),
  ("lightsalmon", (255, 160, 122)),
  ("lightsalmon", (255, 160, 122)),
  ("lightseagreen", (32, 178, 170)),
  ("lightskyblue", (135, 206, 250)),
  ("lightslategray", (119, 136, 153)),
  ("lightslategrey", (119, 136, 153)),
  ("lightsteelblue", (176, 196, 222)),
  ("lightyellow", (255, 255, 224)),
  ("lime", (0, 255, 0)),
  ("limegreen", (50, 205, 50)),
  ("linen", (250, 240, 230)),
  ("magenta", (255, 0, 255)),
  ("mediumaquamarine", (102, 205, 170)),
  ("mediumblue", (0, 0, 205)),
  ("mediumorchid", (186, 85, 211)),
  ("mediumpurple", (147, 112, 219)),
  ("mediumseagreen", (60, 179, 113)),
  ("mediumslateblue", (123, 104, 238)),
  ("mediumslateblue", (123, 104, 238)),
  ("mediumspringgreen", (0, 250, 154)),
  ("mediumturquoise", (72, 209, 204)),
  ("mediumvioletred", (199, 21, 133)),
  ("midnightblue", (25, 25, 112)),
  ("mintcream", (245, 255, 250)),
  ("mistyrose", (255, 228, 225)),
  ("moccasin", (255, 228, 181)),
  ("navy", (0, 0, 128)),
  ("oldlace", (253, 245, 230)),
  ("olive", (128, 128, 0)),
  ("olivedrab", (107, 142, 35)),
  ("orange", (255, 165, 0)),
  ("orangered", (255, 69, 0)),
  ("orchid", (218, 112, 214)),
  ("palegoldenrod", (238, 232, 170)),
  ("palegreen", (152, 251, 152)),
  ("paleturquoise", (175, 238, 238)),
  ("palevioletred", (219, 112, 147)),
  ("papayawhip", (255, 239, 213)),
  ("peachpuff", (255, 218, 185)),
  ("peru", (205, 133, 63)),
  ("pink", (255, 192, 203)),
  ("plum", (221, 160, 221)),
  ("powderblue", (176, 224, 230)),
  ("purple", (128, 0, 128)),
  ("rebeccapurple", (102, 51, 153)),
  ("red", (255, 0, 0)),
  ("rosybrown", (188, 143, 143)),
  ("royalblue", (65, 105, 225)),
  ("saddlebrown", (139, 69, 19)),
  ("salmon", (250, 128, 114)),
  ("sandybrown", (244, 164, 96)),
  ("seagreen", (46, 139, 87)),
  ("seashell", (255, 245, 238)),
  ("sienna", (160, 82, 45)),
  ("silver", (192, 192, 192)),
  ("skyblue", (135, 206, 235)),
  ("slateblue", (106, 90, 205)),
  ("slategray", (112, 128, 144)),
  ("slategrey", (112, 128, 144)),
  ("snow", (255, 250, 250)),
  ("springgreen", (0, 255, 127)),
  ("steelblue", (70, 130, 180)),
  ("tan", (210, 180, 140)),
  ("teal", (0, 128, 128)),
  ("thistle", (216, 191, 216)),
  ("tomato", (255, 99, 71)),
  ("turquoise", (64, 224, 208)),
  ("violet", (238, 130, 238)),
  ("wheat", (245, 222, 179)),
  ("white", (255, 255, 255)),
  ("whitesmoke", (245, 245, 245)),
  ("yellow", (255, 255, 0)),
  ("yellowgreen", (154, 205, 50))
]

/-- Text style keyword: bold. -/
def BOLD : String := "bold"

/-- Text style keyword: dim. -/
def DIM : String := "dim"

/-- Text style keyword: italic. -/
def ITALIC : String := "italic"

/-- Text style keyword: underline. -/
def UNDERLINE : String := "underline"

/-- Text style keyword: blink. -/
def BLINK : String := "blink"

/-- Text style keyword: inverse. -/
def INVERSE : String := "inverse"

/-- Text style keyword: hidden. -/
def HIDDEN : String := "hidden"

/-- Text style keyword: strikethrough. -/
def STRIKETHROUGH : String := "strikethrough"

/-- Text style keyword: reset. -/
def RESET : String := "reset"

/-- ANSI codes for text styles. -/
def FORMAT_CODES : List (String × String) := [
  (RESET, "0"),
  (BOLD, "1"),
  (DIM, "2"),
  (ITALIC, "3"),
  (UNDERLINE, "4"),
  (BLINK, "5"),
  (INVERSE, "7"),
  (HIDDEN, "8"),
  (STRIKETHROUGH, "9")
]

/-- Method _build_ansi_sequence: build an ANSI sequence for an RGB
color, foreground when fg is true, background otherwise. -/
def build_ansi_sequence (fg : Bool) (r g b : Nat) : String :=
  if fg then rgbForeground r g b else rgbBackground r g b

/-- Codes contributed by one entry of the formats list inside the loop
of collect_codes: normalize the key, look it up as a text style, else
strip an optional back tag and look it up as a color. -/
def fmtCodes (fmt : String) : List String :=
  let key := pyLower (pyStrip fmt)
  match List.lookup key FORMAT_CODES with
  | some code => [ansiBase code]
  | none =>
    let is_background := pyStartsWith key BACK_TAG
    let key2 := if is_background then pyDrop key BACK_TAG.length else key
    match List.lookup key2 COLOR_RGB with
    | some rgb => [build_ansi_sequence (!is_background) rgb.1 rgb.2.1 rgb.2.2]
    | none => []

/-- Method collect_codes: convert style names and color tags into ANSI
code sequences, accumulating the contributions of each entry in order. -/
def collect_codes : List String → List String
  | [] => []
  | fmt :: rest => fmtCodes fmt ++ collect_codes rest

/-- Method print_ansi: core printer that injects ANSI sequences and
resets formatting.  Returns the text written, or the raised exception:
with a non-empty ansi_list the codes are prepended to parts[0] (an
IndexError when there are no parts) and, when reset is set, the reset
code is appended to parts[-1]. -/
def print_ansi (objects : List String) (sep endStr : String) (reset : Bool)
    (ansi_list : List String) : Except String String :=
  let parts := objects
  if ansi_list.isEmpty then
    Except.ok (joinSep sep parts ++ endStr)
  else
    match parts with
    | [] => Except.error "IndexError: list assignment index out of range"
    | p :: rest =>
      let parts := (String.join ansi_list ++ p) :: rest
      let reset_seq := ansiBase ((List.lookup RESET FORMAT_CODES).getD "")
      let parts := if reset then appendLast reset_seq parts else parts
      Except.ok (joinSep sep parts ++ endStr)

/-- Format-key list built by print_formatted from its boolean style
flags (in source order: bold, dim, italic, underline, blink, inverse,
hidden, strikethrough) followed by the normalized foreground color name
when it is in COLOR_RGB and the tagged background color name when it is
in COLOR_RGB. -/
def format_keys (bold dim italic underline blink inverse hidden
    strikethrough : Bool) (color back_color : String) : List String :=
  ((if bold then [BOLD] else []) ++
   (if dim then [DIM] else []) ++
   (if italic then [ITALIC] else []) ++
   (if underline then [UNDERLINE] else []) ++
   (if blink then [BLINK] else []) ++
   (if inverse then [INVERSE] else []) ++
   (if hidden then [HIDDEN] else []) ++
   (if strikethrough then [STRIKETHROUGH] else [])) ++
  (let name := pyLower (pyStrip color)
   if (List.lookup name COLOR_RGB).isSome then [name] else []) ++
  (let back_name := pyLower (pyStrip back_color)
   if (List.lookup back_name COLOR_RGB).isSome then [BACK_TAG ++ back_name]
   else [])

/-- Method print_formatted: print text with a combination of styles and
named colors, by collecting the codes for the format keys and calling
print_ansi. -/
def print_formatted (objects : List String) (sep endStr : String)
    (bold dim italic underline blink inverse hidden strikethrough : Bool)
    (color back_color : String) (reset : Bool) : Except String String :=
  let ansi_seq := collect_codes (format_keys bold dim italic underline blink
    inverse hidden strikethrough color back_color)
  print_ansi objects sep endStr reset ansi_seq

/-- Method print_rgb: print text with a custom RGB color. -/
def print_rgb (objects : List String) (sep endStr : String) (reset : Bool)
    (r g b : Nat) (background : Bool) : Except String String :=
  let seq := build_ansi_sequence (!background) r g b
  print_ansi objects sep endStr reset [seq]

/-- Method print_color: print text with a named color, falling back to
DEFAULT_COLOR when the normalized name is absent from COLOR_RGB.  The
inner getD default is unreachable since DEFAULT_COLOR is a key of
COLOR_RGB. -/
def print_color (objects : List String) (sep endStr : String)
    (color : String) (background : Bool) (reset : Bool) :
    Except String String :=
  let name := pyLower (pyStrip color)
  let rgb := (List.lookup name COLOR_RGB).getD
    ((List.lookup DEFAULT_COLOR COLOR_RGB).getD (0, 0, 0))
  print_rgb objects sep endStr reset rgb.1 rgb.2.1 rgb.2.2 background

/-- Method print_hyperlink: wrap the label text in the OSC-8 hyperlink
template and print the composed string as the sole text value through
print_formatted. -/
def print_hyperlink (text hyperlink : String) (sep endStr : String)
    (bold dim italic underline blink inverse hidden strikethrough : Bool)
    (color back_color : String) (reset : Bool) : Except String String :=
  let ansi_hyperlink := hyperlinkTemplate hyperlink text
  print_formatted [ansi_hyperlink] sep endStr bold dim italic underline blink
    inverse hidden strikethrough color back_color reset

/-- Call of print_hyperlink with every optional parameter left at the
default declared in the source signature: sep is a space, end is a
newline, underline is true, every other style flag is false, both color
names are empty, reset is true. -/
def print_hyperlink_defaults (text hyperlink : String) :
    Except String String :=
  print_hyperlink text hyperlink " " "\n" false false false true false false
    false false "" "" true

end ColorPrinter

namespace Core

/-- Wrapper print_blink of the public module: delegates to
print_formatted with blink set, passing reset as the literal true
regardless of its own reset parameter. -/
def print_blink (objects : List String) (sep endStr : String)
    (reset : Bool) : Except String String :=
  ColorPrinter.print_formatted objects sep endStr false false false false
    true false false false "" "" true

/-- Wrapper print_inverse of the public module: delegates to
print_formatted with inverse set, passing reset as the literal true
regardless of its own reset parameter. -/
def print_inverse (objects : List String) (sep endStr : String)
    (reset : Bool) : Except String String :=
  ColorPrinter.print_formatted objects sep endStr false false false false
    false true false false "" "" true

/-- Wrapper print_hidden of the public module: delegates to
print_formatted with hidden set, passing reset as the literal true
regardless of its own reset parameter. -/
def print_hidden (objects : List String) (sep endStr : String)
    (reset : Bool) : Except String String :=
  ColorPrinter.print_formatted objects sep endStr false false false false
    false false true false "" "" true

/-- Wrapper print_reset of the public module: delegates to
print_formatted with no style flag set, passing reset as the literal
true regardless of its own reset parameter. -/
def print_reset (objects : List String) (sep endStr : String)
    (reset : Bool) : Except String String :=
  ColorPrinter.print_formatted objects sep endStr false false false false
    false false false false "" "" true

end Core

namespace ColorPrinter

/-- A successful association-list lookup witnesses membership of the
key-value pair. -/
theorem lookup_mem {β : Type} {k : String} {v : β} :
    ∀ {l : List (String × β)}, List.lookup k l = some v → (k, v) ∈ l := by
  intro l
  induction l with
  | nil => intro h; simp [List.lookup] at h
  | cons p l ih =>
    intro h
    rcases p with ⟨a, b⟩
    by_cases hk : k = a
    · subst hk
      simp [List.lookup] at h
      subst h
      exact List.mem_cons_self _ _
    · have hba : (k == a) = false := beq_false_of_ne hk
      simp [List.lookup, hba] at h
      exact List.mem_cons_of_mem _ (ih h)

/-- Every key of the color table is fixed by normalization, is not a
style keyword, does not carry the back tag, and its back-tagged form
normalizes to itself, is not a style keyword, carries the back tag, and
drops the tag back to the key.  Checked by evaluation over the table. -/
theorem color_keys_fact :
    COLOR_RGB.all (fun p =>
      (pyLower (pyStrip p.1) == p.1) &&
      (List.lookup p.1 FORMAT_CODES).isNone &&
      (pyStartsWith p.1 BACK_TAG == false) &&
      (pyLower (pyStrip (BACK_TAG ++ p.1)) == BACK_TAG ++ p.1) &&
      (List.lookup (BACK_TAG ++ p.1) FORMAT_CODES).isNone &&
      pyStartsWith (BACK_TAG ++ p.1) BACK_TAG &&
      (pyDrop (BACK_TAG ++ p.1) BACK_TAG.length == p.1)) = true := by decide

/-- Pointwise form of color_keys_fact for a key found by lookup. -/
theorem color_key_props {name : String} {rgb : Nat × Nat × Nat}
    (h : List.lookup name COLOR_RGB = some rgb) :
    pyLower (pyStrip name) = name ∧
    List.lookup name FORMAT_CODES = none ∧
    pyStartsWith name BACK_TAG = false ∧
    pyLower (pyStrip (BACK_TAG ++ name)) = BACK_TAG ++ name ∧
    List.lookup (BACK_TAG ++ name) FORMAT_CODES = none ∧
    pyStartsWith (BACK_TAG ++ name) BACK_TAG = true ∧
    pyDrop (BACK_TAG ++ name) BACK_TAG.length = name := by
  have hall := color_keys_fact
  rw [List.all_eq_true] at hall
  have hp := hall _ (lookup_mem h)
  simp only [Bool.and_eq_true, beq_iff_eq, Option.isNone_iff_eq_none] at hp
  exact ⟨hp.1.1.1.1.1.1, hp.1.1.1.1.1.2, hp.1.1.1.1.2, hp.1.1.1.2,
    hp.1.1.2, hp.1.2, hp.2⟩

/-- The codes for a valid foreground color key: one RGB foreground
sequence. -/
theorem fmtCodes_fg {name : String} {rgb : Nat × Nat × Nat}
    (h : List.lookup name COLOR_RGB = some rgb) :
    fmtCodes name = [rgbForeground rgb.1 rgb.2.1 rgb.2.2] := by
  obtain ⟨h1, h2, h3, -, -, -, -⟩ := color_key_props h
  simp [fmtCodes, h1, h2, h3, h, build_ansi_sequence]

/-- The codes for a back-tagged valid color key: one RGB background
sequence. -/
theorem fmtCodes_bg {name : String} {rgb : Nat × Nat × Nat}
    (h : List.lookup name COLOR_RGB = some rgb) :
    fmtCodes (BACK_TAG ++ name) = [rgbBackground rgb.1 rgb.2.1 rgb.2.2] := by
  obtain ⟨-, -, -, h4, h5, h6, h7⟩ := color_key_props h
  simp [fmtCodes, h4, h5, h6, h7, h, build_ansi_sequence]

/-- collect_codes distributes over list concatenation. -/
theorem collect_codes_append (xs ys : List String) :
    collect_codes (xs ++ ys) = collect_codes xs ++ collect_codes ys := by
  induction xs with
  | nil => rfl
  | cons x xs ih => simp [collect_codes, ih]

/-- collect_codes of a conditional singleton. -/
theorem collect_codes_ite (c : Bool) (k : String) :
    collect_codes (if c then [k] else []) =
      if c then fmtCodes k else [] := by
  cases c <;> simp [collect_codes]

/-- Prepending to the head of the part list prepends to the joined
text. -/
theorem joinSep_head_append (sep a x : String) (xs : List String) :
    joinSep sep ((a ++ x) :: xs) = a ++ joinSep sep (x :: xs) := by
  cases xs with
  | nil => rfl
  | cons y ys =>
    show a ++ x ++ sep ++ joinSep sep (y :: ys) =
      a ++ (x ++ sep ++ joinSep sep (y :: ys))
    simp [String.append_assoc]

/-- Appending to the last part appends to the joined text. -/
theorem joinSep_appendLast (sep s : String) (xs : List String)
    (hne : xs ≠ []) :
    joinSep sep (appendLast s xs) = joinSep sep xs ++ s := by
  induction xs with
  | nil => cases hne rfl
  | cons x xs ih =>
    cases xs with
    | nil => rfl
    | cons y ys =>
      have ih2 := ih (by simp)
      rw [show appendLast s (x :: y :: ys) = x :: appendLast s (y :: ys)
        from rfl]
      rcases hz : appendLast s (y :: ys) with _ | ⟨z, zs⟩
      · cases ys <;> simp [appendLast] at hz
      · rw [hz] at ih2
        show x ++ sep ++ joinSep sep (z :: zs) =
          x ++ sep ++ joinSep sep (y :: ys) ++ s
        rw [ih2]
        simp [String.append_assoc]

/-- The reset sequence computed inside print_ansi. -/
theorem reset_seq_eq :
    ansiBase ((List.lookup RESET FORMAT_CODES).getD "") = "\x1b[0m" := by
  decide

/-- General form of the print_ansi output for a non-empty part list and
non-empty prefix list with reset requested: concatenated prefix, joined
values, reset sequence, terminator. -/
theorem print_ansi_prefix_reset (objects ansi_list : List String)
    (sep endStr : String) (h1 : objects ≠ []) (h2 : ansi_list ≠ []) :
    print_ansi objects sep endStr true ansi_list =
      Except.ok (String.join ansi_list ++ joinSep sep objects ++
        "\x1b[0m" ++ endStr) := by
  rcases objects with _ | ⟨p, rest⟩
  · cases h1 rfl
  · have hne : ansi_list.isEmpty = false := by
      cases ansi_list
      · cases h2 rfl
      · rfl
    simp only [print_ansi, hne, Bool.false_eq_true, if_false, if_true]
    rw [joinSep_appendLast _ _ _ (by simp), joinSep_head_append,
      reset_seq_eq]

/-- Claim C1: printing a non-empty list of values with a non-empty ANSI
prefix list and reset requested emits the concatenated prefix, the
values joined by the separator, the reset sequence, then the
terminator; the prefix attaches to the first value and the reset to the
last. -/
theorem print_ansi_multi_value (objects ansi_list : List String)
    (sep endStr : String) (h1 : objects ≠ []) (h2 : ansi_list ≠ []) :
    print_ansi objects sep endStr true ansi_list =
      Except.ok (String.join ansi_list ++ joinSep sep objects ++
        "\x1b[0m" ++ endStr) :=
  print_ansi_prefix_reset objects ansi_list sep endStr h1 h2

/-- Claim C1 witness: the concrete two-value bold example. -/
theorem print_ansi_multi_value_witness :
    (["a", "b"] ≠ ([] : List String)) ∧
    (["\x1b[1m"] ≠ ([] : List String)) ∧
    print_ansi ["a", "b"] "-" "\n" true ["\x1b[1m"] =
      Except.ok "\x1b[1ma-b\x1b[0m\n" :=
  ⟨by decide, by decide,
    (print_ansi_multi_value ["a", "b"] ["\x1b[1m"] "-" "\n" (by decide)
      (by decide)).trans (by decide)⟩

/-- Claim C4 counterexample: with zero values and a non-empty prefix
list, print_ansi raises an IndexError instead of writing the
terminator. -/
theorem print_ansi_empty_values_error :
    print_ansi [] " " "\n" true ["\x1b[1m"] =
      Except.error "IndexError: list assignment index out of range" ∧
    print_ansi [] " " "\n" true ["\x1b[1m"] ≠ Except.ok "\n" := by
  constructor
  · decide
  · decide

/-- Claim C4 (amended): with zero values and an empty prefix list, no
error is raised and only the terminator is written, for every
separator, terminator and reset flag. -/
theorem print_ansi_empty_values (sep endStr : String) (reset : Bool) :
    print_ansi [] sep endStr reset [] = Except.ok endStr := by
  simp [print_ansi, joinSep, String.empty_append]

/-- The codes produced for each of the eight style keywords. -/
theorem style_fmtCodes :
    fmtCodes BOLD = ["\x1b[1m"] ∧ fmtCodes DIM = ["\x1b[2m"] ∧
    fmtCodes ITALIC = ["\x1b[3m"] ∧ fmtCodes UNDERLINE = ["\x1b[4m"] ∧
    fmtCodes BLINK = ["\x1b[5m"] ∧ fmtCodes INVERSE = ["\x1b[7m"] ∧
    fmtCodes HIDDEN = ["\x1b[8m"] ∧ fmtCodes STRIKETHROUGH = ["\x1b[9m"] := by
  refine ⟨?_, ?_, ?_, ?_, ?_, ?_, ?_, ?_⟩ <;> decide

/-- Decomposition of the collected prefix for any print_formatted call:
style codes in canonical order, then the foreground color sequence when
the normalized foreground name is in the table, then the background
color sequence when the normalized background name is in the table. -/
theorem collect_format_keys (bold dim italic underline blink inverse hidden
    strikethrough : Bool) (color back_color : String) :
    collect_codes (format_keys bold dim italic underline blink inverse hidden
      strikethrough color back_color) =
      ((if bold then ["\x1b[1m"] else []) ++
       (if dim then ["\x1b[2m"] else []) ++
       (if italic then ["\x1b[3m"] else []) ++
       (if underline then ["\x1b[4m"] else []) ++
       (if blink then ["\x1b[5m"] else []) ++
       (if inverse then ["\x1b[7m"] else []) ++
       (if hidden then ["\x1b[8m"] else []) ++
       (if strikethrough then ["\x1b[9m"] else [])) ++
      (match List.lookup (pyLower (pyStrip color)) COLOR_RGB with
       | some rgb => [rgbForeground rgb.1 rgb.2.1 rgb.2.2]
       | none => []) ++
      (match List.lookup (pyLower (pyStrip back_color)) COLOR_RGB with
       | some rgb => [rgbBackground rgb.1 rgb.2.1 rgb.2.2]
       | none => []) := by
  obtain ⟨e1, e2, e3, e4, e5, e6, e7, e8⟩ := style_fmtCodes
  simp only [format_keys, collect_codes_append, collect_codes_ite,
    e1, e2, e3, e4, e5, e6, e7, e8]
  cases hc : List.lookup (pyLower (pyStrip color)) COLOR_RGB with
  | none =>
    cases hb : List.lookup (pyLower (pyStrip back_color)) COLOR_RGB with
    | none => simp [hc, hb, collect_codes]
    | some rgb => simp [hc, hb, collect_codes, fmtCodes_bg hb]
  | some rgb =>
    cases hb : List.lookup (pyLower (pyStrip back_color)) COLOR_RGB with
    | none => simp [hc, hb, collect_codes, fmtCodes_fg hc]
    | some rgb2 =>
      simp [hc, hb, collect_codes, fmtCodes_fg hc, fmtCodes_bg hb]

/-- Claim C2: the collected prefix lists the style escape sequences in
the fixed canonical order bold, dim, italic, underline, blink, inverse,
hidden, strikethrough, then the foreground color sequence when a valid
one is requested, then the background color sequence when a valid one
is requested; in particular requesting underline and bold yields the
bold code before the underline code. -/
theorem format_prefix_canonical (bold dim italic underline blink inverse
    hidden strikethrough : Bool) (color back_color : String) :
    (collect_codes (format_keys bold dim italic underline blink inverse
      hidden strikethrough color back_color) =
      ((if bold then ["\x1b[1m"] else []) ++
       (if dim then ["\x1b[2m"] else []) ++
       (if italic then ["\x1b[3m"] else []) ++
       (if underline then ["\x1b[4m"] else []) ++
       (if blink then ["\x1b[5m"] else []) ++
       (if inverse then ["\x1b[7m"] else []) ++
       (if hidden then ["\x1b[8m"] else []) ++
       (if strikethrough then ["\x1b[9m"] else [])) ++
      (match List.lookup (pyLower (pyStrip color)) COLOR_RGB with
       | some rgb => [rgbForeground rgb.1 rgb.2.1 rgb.2.2]
       | none => []) ++
      (match List.lookup (pyLower (pyStrip back_color)) COLOR_RGB with
       | some rgb => [rgbBackground rgb.1 rgb.2.1 rgb.2.2]
       | none => [])) ∧
    collect_codes (format_keys true false false true false false false false
      "" "") = ["\x1b[1m", "\x1b[4m"] :=
  ⟨collect_format_keys bold dim italic underline blink inverse hidden
    strikethrough color back_color, by decide⟩

/-- Claim C7: for print_formatted, an unknown color or background color
name contributes nothing to the prefix, which equals the prefix with no
color requested, while every style flag set in the same call still
produces its escape sequence in canonical order. -/
theorem print_formatted_unknown_color (bold dim italic underline blink
    inverse hidden strikethrough : Bool) (color back_color : String)
    (hc : List.lookup (pyLower (pyStrip color)) COLOR_RGB = none)
    (hb : List.lookup (pyLower (pyStrip back_color)) COLOR_RGB = none) :
    collect_codes (format_keys bold dim italic underline blink inverse hidden
      strikethrough color back_color) =
      collect_codes (format_keys bold dim italic underline blink inverse
        hidden strikethrough "" "") ∧
    collect_codes (format_keys bold dim italic underline blink inverse hidden
      strikethrough color back_color) =
      (if bold then ["\x1b[1m"] else []) ++
      (if dim then ["\x1b[2m"] else []) ++
      (if italic then ["\x1b[3m"] else []) ++
      (if underline then ["\x1b[4m"] else []) ++
      (if blink then ["\x1b[5m"] else []) ++
      (if inverse then ["\x1b[7m"] else []) ++
      (if hidden then ["\x1b[8m"] else []) ++
      (if strikethrough then ["\x1b[9m"] else []) := by
  have h1 := collect_format_keys bold dim italic underline blink inverse
    hidden strikethrough color back_color
  have h2 := collect_format_keys bold dim italic underline blink inverse
    hidden strikethrough "" ""
  rw [hc, hb] at h1
  rw [show List.lookup (pyLower (pyStrip "")) COLOR_RGB = none from by
    decide] at h2
  constructor
  · rw [h1, h2]
  · rw [h1]
    simp

/-- Claim C7 witness: bold survives unknown foreground and background
names. -/
theorem print_formatted_unknown_color_witness :
    (List.lookup (pyLower (pyStrip "ultraviolet")) COLOR_RGB = none) ∧
    (List.lookup (pyLower (pyStrip "notacolor")) COLOR_RGB = none) ∧
    collect_codes (format_keys true false false false false false false false
      "ultraviolet" "notacolor") =
      collect_codes (format_keys true false false false false false false
        false "" "") :=
  ⟨by decide, by decide,
    (print_formatted_unknown_color true false false false false false false
      false "ultraviolet" "notacolor" (by decide) (by decide)).1⟩

/-- Claim C3: every style escape sequence emitted has the form ESC
bracket code m with code 0 for reset, 1 bold, 2 dim, 3 italic, 4
underline, 5 blink, 7 inverse, 8 hidden, 9 strikethrough; and for every
RGB triple the foreground sequence is ESC bracket 38;2;r;g;b m, the
background sequence is ESC bracket 48;2;r;g;b m, and the two differ
only in the introducer 38 versus 48. -/
theorem escape_sequence_shapes :
    (fmtCodes RESET = ["\x1b[0m"] ∧ fmtCodes BOLD = ["\x1b[1m"] ∧
     fmtCodes DIM = ["\x1b[2m"] ∧ fmtCodes ITALIC = ["\x1b[3m"] ∧
     fmtCodes UNDERLINE = ["\x1b[4m"] ∧ fmtCodes BLINK = ["\x1b[5m"] ∧
     fmtCodes INVERSE = ["\x1b[7m"] ∧ fmtCodes HIDDEN = ["\x1b[8m"] ∧
     fmtCodes STRIKETHROUGH = ["\x1b[9m"]) ∧
    (∀ r g b : Nat,
      build_ansi_sequence true r g b =
        "\x1b[38;2;" ++ toString r ++ ";" ++ toString g ++ ";" ++
          toString b ++ "m" ∧
      build_ansi_sequence false r g b =
        "\x1b[48;2;" ++ toString r ++ ";" ++ toString g ++ ";" ++
          toString b ++ "m" ∧
      ∃ rest : String,
        build_ansi_sequence true r g b = "\x1b[38" ++ rest ∧
        build_ansi_sequence false r g b = "\x1b[48" ++ rest) := by
  constructor
  · exact ⟨by decide, by decide, by decide, by decide, by decide, by decide,
      by decide, by decide, by decide⟩
  · intro r g b
    refine ⟨rfl, rfl,
      ";2;" ++ toString r ++ ";" ++ toString g ++ ";" ++ toString b ++ "m",
      ?_, ?_⟩
    · show "\x1b[38;2;" ++ toString r ++ ";" ++ toString g ++ ";" ++
        toString b ++ "m" =
        "\x1b[38" ++ (";2;" ++ toString r ++ ";" ++ toString g ++ ";" ++
          toString b ++ "m")
      rw [show ("\x1b[38;2;" : String) = "\x1b[38" ++ ";2;" from rfl]
      simp only [String.append_assoc]
    · show "\x1b[48;2;" ++ toString r ++ ";" ++ toString g ++ ";" ++
        toString b ++ "m" =
        "\x1b[48" ++ (";2;" ++ toString r ++ ";" ++ toString g ++ ";" ++
          toString b ++ "m")
      rw [show ("\x1b[48;2;" : String) = "\x1b[48" ++ ";2;" from rfl]
      simp only [String.append_assoc]

/-- Claim C5 counterexample: an empty style request with reset
requested emits no reset suffix at all, because print_ansi only appends
the reset code when the ANSI prefix list is non-empty. -/
theorem empty_request_reset_counterexample :
    print_formatted ["x"] " " "\n" false false false false false false false
      false "" "" true = Except.ok "x\n" ∧
    print_formatted ["x"] " " "\n" false false false false false false false
      false "" "" true ≠ Except.ok "x\x1b[0m\n" := by
  constructor
  · decide
  · decide

/-- Claim C5 (amended): for a call whose style request is empty the
prefix is empty and no reset suffix is appended even when reset is
requested; the output is the values joined by the separator followed by
the terminator only. -/
theorem empty_request_output (objects : List String) (sep endStr : String)
    (color back_color : String) (reset : Bool)
    (hc : List.lookup (pyLower (pyStrip color)) COLOR_RGB = none)
    (hb : List.lookup (pyLower (pyStrip back_color)) COLOR_RGB = none) :
    print_formatted objects sep endStr false false false false false false
      false false color back_color reset =
      Except.ok (joinSep sep objects ++ endStr) := by
  have h := collect_format_keys false false false false false false false
    false color back_color
  rw [hc, hb] at h
  simp only [if_neg, List.append_nil, List.nil_append] at h
  simp [print_formatted, h, print_ansi]

/-- Claim C5 witness: the concrete single-value no-style call. -/
theorem empty_request_output_witness :
    (List.lookup (pyLower (pyStrip "")) COLOR_RGB = none) ∧
    print_formatted ["x"] " " "\n" false false false false false false false
      false "" "" true = Except.ok "x\n" :=
  ⟨by decide, (empty_request_output ["x"] " " "\n" "" "" true (by decide)
    (by decide)).trans (by decide)⟩

/-- Claim C6 counterexample: print_color with the unknown name
ultraviolet emits the white foreground sequence, so its output is not
identical to printing the same value with no color requested. -/
theorem print_color_unknown_counterexample :
    print_color ["x"] " " "\n" "ultraviolet" false true =
      Except.ok "\x1b[38;2;255;255;255mx\x1b[0m\n" ∧
    print_formatted ["x"] " " "\n" false false false false false false false
      false "" "" true = Except.ok "x\n" ∧
    ("\x1b[38;2;255;255;255mx\x1b[0m\n" : String) ≠ "x\n" := by
  refine ⟨by decide, by decide, by decide⟩

/-- Claim C6 (amended): print_color silently falls back to the default
color white for a name whose normalization is not in the color table:
its output equals print_rgb with the triple 255 255 255. -/
theorem print_color_unknown_fallback (objects : List String)
    (sep endStr name : String) (background reset : Bool)
    (h : List.lookup (pyLower (pyStrip name)) COLOR_RGB = none) :
    print_color objects sep endStr name background reset =
      print_rgb objects sep endStr reset 255 255 255 background := by
  have hw : List.lookup DEFAULT_COLOR COLOR_RGB = some (255, 255, 255) := by
    decide
  simp [print_color, h, hw]

/-- Claim C6 witness: the concrete unknown-name call. -/
theorem print_color_unknown_fallback_witness :
    (List.lookup (pyLower (pyStrip "ultraviolet")) COLOR_RGB = none) ∧
    print_color ["x"] " " "\n" "ultraviolet" false true =
      print_rgb ["x"] " " "\n" true 255 255 255 false :=
  ⟨by decide, print_color_unknown_fallback ["x"] " " "\n" "ultraviolet" false
    true (by decide)⟩

/-- Claim C8: print_hyperlink wraps the label as link start, label,
link end in the OSC-8 form, passes the composed string as the sole text
value through print_formatted, and with all parameters at their
defaults underline is on and the style prefix and reset wrap the
outside of the link-wrapped string; the concrete example with label
click and url https x gives the exact byte string. -/
theorem print_hyperlink_output :
    (∀ (text hyperlink sep endStr : String)
       (bold dim italic underline blink inverse hidden strikethrough : Bool)
       (color back_color : String) (reset : Bool),
       print_hyperlink text hyperlink sep endStr bold dim italic underline
         blink inverse hidden strikethrough color back_color reset =
       print_formatted [hyperlinkTemplate hyperlink text] sep endStr bold dim
         italic underline blink inverse hidden strikethrough color back_color
         reset) ∧
    (∀ text hyperlink : String,
       print_hyperlink_defaults text hyperlink =
         Except.ok ("\x1b[4m" ++ hyperlinkTemplate hyperlink text ++
           "\x1b[0m" ++ "\n")) ∧
    print_hyperlink_defaults "click" "https://x" =
      Except.ok "\x1b[4m\x1b]8;;https://x\x1b\\click\x1b]8;;\x1b\\\x1b[0m\n"
    := by
  refine ⟨fun _ _ _ _ _ _ _ _ _ _ _ _ _ _ _ => rfl, ?_, by decide⟩
  intro text hyperlink
  show print_formatted [hyperlinkTemplate hyperlink text] " " "\n" false
    false false true false false false false "" "" true = _
  have hkeys : collect_codes (format_keys false false false true false false
    false false "" "") = ["\x1b[4m"] := by decide
  simp only [print_formatted, hkeys]
  rw [print_ansi_prefix_reset _ _ _ _ (by simp) (by simp)]
  rw [show String.join ["\x1b[4m"] = "\x1b[4m" from by decide]
  simp [joinSep]

/-- Claim C9: named-color lookup is case-insensitive and ignores
surrounding whitespace: any two names equal after normalization resolve
the same way, both for collect_codes entries and for print_color, and
the names Red, red, and RED with surrounding spaces all resolve to the
triple 255 0 0. -/
theorem color_lookup_case_insensitive :
    (∀ a b : String, pyLower (pyStrip a) = pyLower (pyStrip b) →
       List.lookup (pyLower (pyStrip a)) COLOR_RGB =
         List.lookup (pyLower (pyStrip b)) COLOR_RGB) ∧
    (∀ a b : String, pyLower (pyStrip a) = pyLower (pyStrip b) →
       fmtCodes a = fmtCodes b) ∧
    (∀ (objects : List String) (sep endStr : String)
       (background reset : Bool) (a b : String),
       pyLower (pyStrip a) = pyLower (pyStrip b) →
       print_color objects sep endStr a background reset =
         print_color objects sep endStr b background reset) ∧
    (List.lookup (pyLower (pyStrip "Red")) COLOR_RGB = some (255, 0, 0) ∧
     List.lookup (pyLower (pyStrip "red")) COLOR_RGB = some (255, 0, 0) ∧
     List.lookup (pyLower (pyStrip " RED ")) COLOR_RGB =
       some (255, 0, 0)) := by
  refine ⟨?_, ?_, ?_, by decide, by decide, by decide⟩
  · intro a b h
    rw [h]
  · intro a b h
    simp only [fmtCodes, h]
  · intro objects sep endStr background reset a b h
    simp only [print_color, h]

/-- Claim C9 witness: Red and RED with surrounding spaces print the
same way. -/
theorem color_lookup_case_insensitive_witness :
    (pyLower (pyStrip "Red") = pyLower (pyStrip " RED ")) ∧
    print_color ["x"] " " "\n" "Red" false true =
      print_color ["x"] " " "\n" " RED " false true :=
  ⟨by decide, color_lookup_case_insensitive.2.2.1 ["x"] " " "\n" false true
    "Red" " RED " (by decide)⟩

end ColorPrinter

/-- Claim C10 counterexample: print_reset never applies the reset
suffix, with reset true or false: it requests no styles, so the ANSI
prefix list is empty and print_ansi skips the reset append; the output
for the value x is x plus the terminator, without the reset sequence. -/
theorem print_reset_no_suffix_counterexample :
    Core.print_reset ["x"] " " "\n" true = Except.ok "x\n" ∧
    Core.print_reset ["x"] " " "\n" false = Except.ok "x\n" ∧
    Core.print_reset ["x"] " " "\n" true ≠ Except.ok "x\x1b[0m\n" := by
  refine ⟨by decide, by decide, by decide⟩

/-- Claim C10 (amended): the wrapper functions print_blink,
print_inverse, print_hidden and print_reset accept a reset parameter
but ignore it, the output for each reset value being the same; for
print_blink, print_inverse and print_hidden, which request a style, the
reset suffix is always applied when at least one value is printed; for
print_reset the ANSI prefix list is empty, so the reset suffix is never
applied and the output is just the values joined by the separator plus
the terminator. -/
theorem core_wrappers_reset_behavior (objects : List String)
    (sep endStr : String) :
    (∀ reset : Bool,
       Core.print_blink objects sep endStr reset =
         Core.print_blink objects sep endStr true ∧
       Core.print_inverse objects sep endStr reset =
         Core.print_inverse objects sep endStr true ∧
       Core.print_hidden objects sep endStr reset =
         Core.print_hidden objects sep endStr true ∧
       Core.print_reset objects sep endStr reset =
         Core.print_reset objects sep endStr true) ∧
    (objects ≠ [] → ∀ reset : Bool,
       Core.print_blink objects sep endStr reset =
         Except.ok ("\x1b[5m" ++ joinSep sep objects ++ "\x1b[0m" ++
           endStr) ∧
       Core.print_inverse objects sep endStr reset =
         Except.ok ("\x1b[7m" ++ joinSep sep objects ++ "\x1b[0m" ++
           endStr) ∧
       Core.print_hidden objects sep endStr reset =
         Except.ok ("\x1b[8m" ++ joinSep sep objects ++ "\x1b[0m" ++
           endStr)) ∧
    (∀ reset : Bool,
       Core.print_reset objects sep endStr reset =
         Except.ok (joinSep sep objects ++ endStr)) := by
  refine ⟨fun _ => ⟨rfl, rfl, rfl, rfl⟩, ?_, ?_⟩
  · intro h _
    have hb : ColorPrinter.collect_codes (ColorPrinter.format_keys false
      false false false true false false false "" "") = ["\x1b[5m"] := by
      decide
    have hi : ColorPrinter.collect_codes (ColorPrinter.format_keys false
      false false false false true false false "" "") = ["\x1b[7m"] := by
      decide
    have hh : ColorPrinter.collect_codes (ColorPrinter.format_keys false
      false false false false false true false "" "") = ["\x1b[8m"] := by
      decide
    refine ⟨?_, ?_, ?_⟩
    · show ColorPrinter.print_formatted objects sep endStr false false false
        false true false false false "" "" true = _
      simp only [ColorPrinter.print_formatted, hb]
      rw [ColorPrinter.print_ansi_prefix_reset _ _ _ _ h (by simp)]
      rw [show String.join ["\x1b[5m"] = "\x1b[5m" from by decide]
    · show ColorPrinter.print_formatted objects sep endStr false false false
        false false true false false "" "" true = _
      simp only [ColorPrinter.print_formatted, hi]
      rw [ColorPrinter.print_ansi_prefix_reset _ _ _ _ h (by simp)]
      rw [show String.join ["\x1b[7m"] = "\x1b[7m" from by decide]
    · show ColorPrinter.print_formatted objects sep endStr false false false
        false false false true false "" "" true = _
      simp only [ColorPrinter.print_formatted, hh]
      rw [ColorPrinter.print_ansi_prefix_reset _ _ _ _ h (by simp)]
      rw [show String.join ["\x1b[8m"] = "\x1b[8m" from by decide]
  · intro _
    show ColorPrinter.print_formatted objects sep endStr false false false
      false false false false false "" "" true = _
    have h0 : ColorPrinter.collect_codes (ColorPrinter.format_keys false
      false false false false false false false "" "") = [] := by decide
    simp [ColorPrinter.print_formatted, h0, ColorPrinter.print_ansi]

/-- Claim C10 witness: with the single value x, print_blink carries the
reset suffix for reset false while print_reset never does. -/
theorem core_wrappers_reset_behavior_witness :
    (["x"] ≠ ([] : List String)) ∧
    Core.print_blink ["x"] " " "\n" false =
      Except.ok "\x1b[5mx\x1b[0m\n" ∧
    Core.print_reset ["x"] " " "\n" false = Except.ok "x\n" :=
  ⟨by decide,
   (((core_wrappers_reset_behavior ["x"] " " "\n").2.1 (by decide)
     false).1).trans (by decide),
   (((core_wrappers_reset_behavior ["x"] " " "\n").2.2
     false)).trans (by decide)⟩
